import Mathlib

/-!
Shallow embedding of `generate_parameter_library_py/main.py` (the schema
to C++-parameter-code compiler).  Python values delivered by the YAML
collaborator are modelled by `PyVal`; raised Python exceptions by
`PyError`; every translated function keeps the source's name and its
observable behaviour, including its exact error messages.

Python floats are represented at the boundary of `str(float)`: a float is
carried as the decimal text Python's `str` would produce (`"nan"`,
`"inf"`, `"-inf"` or a decimal such as `"1.5"`), because the only thing
`main.py` ever does with a float is format that text.
-/

namespace GenParamLib

/-! ### Python string primitives

Kernel-computable implementations of the `str` operations the source
uses: `s.split(sep)` with a one-character separator, `sub in s`,
`s[-2:]`, `s[:-2]`, `s.replace('.', '_')` and `"".join`. -/

/-- Python split on character lists: `splitChar c l` is `''.join(l).split(c)` on character lists:
splitting at every occurrence of `c`, keeping empty pieces. -/
def splitChar (c : Char) : List Char → List (List Char)
  | [] => [[]]
  | x :: xs =>
    match splitChar c xs with
    | [] => []
    | r :: rs => if x = c then [] :: r :: rs else (x :: r) :: rs

/-- Python `s.split(c)` for a one-character separator `c`. -/
def pySplit (s : String) (c : Char) : List String :=
  (splitChar c s.data).map String.mk

/-- Whether the first list is a prefix of the second. -/
def isPrefixL : List Char → List Char → Bool
  | [], _ => true
  | _ :: _, [] => false
  | a :: as, b :: bs => a = b && isPrefixL as bs

/-- Whether `pat` occurs as a contiguous sublist. -/
def containsSub (pat : List Char) : List Char → Bool
  | [] => isPrefixL pat []
  | x :: xs => isPrefixL pat (x :: xs) || containsSub pat xs

/-- Python `pat in s` (substring containment). -/
def pyContains (s pat : String) : Bool := containsSub pat.data s.data

/-- Python `s[-2:] == "<>"`. -/
def lastTwoIsAngle (s : String) : Bool :=
  match s.data.reverse with
  | '>' :: '<' :: _ => true
  | _ => false

/-- Python `s[:-2]`. -/
def dropLastTwo (s : String) : String := String.mk s.data.dropLast.dropLast

/-- Python `s.replace('.', '_')` (single-character pattern). -/
def replaceDotUnd (s : String) : String :=
  String.mk (s.data.map (fun c => if c = '.' then '_' else c))

/-! ### Python values and exceptions -/

/-- A Python value as delivered by the YAML document parser: `None`,
scalars, sequences and mappings (mappings keep insertion order, as
Python dicts do). -/
inductive PyVal where
  | pyNone
  | pyBool (b : Bool)
  | pyInt (n : Int)
  | pyFloat (repr : String)
  | pyStr (s : String)
  | pyList (xs : List PyVal)
  | pyDict (entries : List (String × PyVal))
deriving Repr

/-- Embeds `isinstance(v, dict)`. -/
def isDict : PyVal → Bool
  | .pyDict _ => true
  | _ => false

/-- Embeds `v is None`. -/
def PyVal.isNone : PyVal → Bool
  | .pyNone => true
  | _ => false

/-- Exceptions the translated code can raise: `YAMLSyntaxError` (built by
`compile_error`), an escaped `StopIteration`, and the `TypeError` /
`IndexError` a mis-typed Python operation raises. -/
inductive PyError where
  | yamlSyntaxError (msg : String)
  | stopIteration
  | typeError
  | indexError
deriving Repr, DecidableEq

/-- Embeds `compile_error(msg)` from main.py: a `YAMLSyntaxError` carrying
`"\nERROR: " + msg`. -/
def compile_error (msg : String) : PyError :=
  .yamlSyntaxError ("\nERROR: " ++ msg)

/-- An apostrophe, built from its code point so it can be embedded in the
error texts `repr`-style class names use. -/
def sq : String := String.singleton (Char.ofNat 39)

/-- Python `str(type(x))` for a `str` argument: `<class 'str'>`. -/
def classOfStr : String := "<class " ++ sq ++ "str" ++ sq ++ ">"

/-- Python `str(type(v))` of a runtime value, used in error messages. -/
def pyClassName (v : PyVal) : String :=
  let n := match v with
    | .pyNone => "NoneType"
    | .pyBool _ => "bool"
    | .pyInt _ => "int"
    | .pyFloat _ => "float"
    | .pyStr _ => "str"
    | .pyList _ => "list"
    | .pyDict _ => "dict"
  "<class " ++ sq ++ n ++ sq ++ ">"

/-- Python truthiness `bool(v)`. -/
def pyTruthy : PyVal → Bool
  | .pyNone => false
  | .pyBool b => b
  | .pyInt n => decide (n ≠ 0)
  | .pyFloat r => !(r = "0.0" || r = "-0.0" || r = "0")
  | .pyStr s => decide (s ≠ "")
  | .pyList xs => !xs.isEmpty
  | .pyDict es => !es.isEmpty

/-- Python `d[key]` / `d.get(key)` over an insertion-ordered mapping. -/
def pyDictGet (entries : List (String × PyVal)) (key : String) : Option PyVal :=
  match entries with
  | [] => none
  | (k, v) :: rest => if k = key then some v else pyDictGet rest key

/-- The `typeguard` check for a `str`-annotated argument: a non-`str`
value raises `TypeError`. -/
def expectStr : PyVal → Except PyError String
  | .pyStr s => .ok s
  | _ => .error .typeError

/-! ### helper functions of main.py -/

/-- Embeds `array_type(defined_type)`: `defined_type.__contains__("array")`. -/
def array_type (defined_type : String) : Bool := pyContains defined_type "array"

/-- Embeds `is_mapped_parameter(param_name)`: `param_name.__contains__("__map_")`. -/
def is_mapped_parameter (param_name : String) : Bool := pyContains param_name "__map_"

/-- The exact Python class of a value, as `type(v)` compares it
(`type(True)` is `bool`, not `int`). -/
def pyExactClass (v : PyVal) : String :=
  match v with
  | .pyNone => "NoneType"
  | .pyBool _ => "bool"
  | .pyInt _ => "int"
  | .pyFloat _ => "float"
  | .pyStr _ => "str"
  | .pyList _ => "list"
  | .pyDict _ => "dict"

/-- The `type_translation` table of `validate_type` (main.py lines 86-95),
mapping each recognized type tag to the Python class its values must
have; `none` models the `KeyError` an unknown tag raises. -/
def type_translation (defined_type : String) : Option String :=
  if defined_type = "string" then some "str"
  else if defined_type = "double" then some "float"
  else if defined_type = "int" then some "int"
  else if defined_type = "bool" then some "bool"
  else if defined_type = "string_array" then some "str"
  else if defined_type = "double_array" then some "float"
  else if defined_type = "int_array" then some "int"
  else if defined_type = "bool_array" then some "bool"
  else none

/-- Embeds `validate_type(defined_type, value)` from main.py. -/
def validate_type (defined_type : String) (value : PyVal) : Except PyError Bool := do
  match value with
  | .pyList vals =>
    if !array_type defined_type then
      .ok false
    else
      vals.foldlM (fun acc val => do
        let cls ← match type_translation defined_type with
          | some c => Except.ok c
          | none => Except.error PyError.typeError
        if cls ≠ pyExactClass val then .ok false else .ok acc) true
  | _ =>
    if array_type defined_type then
      .ok false
    else
      match type_translation defined_type with
      | some cls =>
        if cls ≠ pyExactClass value then .ok false else .ok true
      | none => .error .typeError

/-! ### value to C++ string conversion functions -/

/-- Embeds `bool_to_str` from main.py. -/
def bool_to_str : Option Bool → Option String
  | none => none
  | some cond => some (if cond then "true" else "false")

/-- Embeds `float_to_str` from main.py; the argument is the Python `str(num)`
text of the float (see the module comment). -/
def float_to_str : Option String → Option String
  | none => none
  | some str_num =>
    if str_num = "nan" then some "std::numeric_limits<double>::quiet_NaN()"
    else if str_num = "inf" then some "std::numeric_limits<double>::infinity()"
    else if str_num = "-inf" then some "-std::numeric_limits<double>::infinity()"
    else if (pySplit str_num '.').length = 1 then some (str_num ++ ".0")
    else some str_num

/-- Embeds `int_to_str` from main.py (`str(num)`). -/
def int_to_str : Option Int → Option String
  | none => none
  | some num => some (toString num)

/-- Embeds `str_to_str` from main.py (`'"%s"' % s`). -/
def str_to_str : Option String → Option String
  | none => none
  | some s => some ("\"" ++ s ++ "\"")

/-- Embeds `cpp_type_from_defined_type` from main.py. -/
def cpp_type_from_defined_type (yaml_type : String) : Except PyError String :=
  if yaml_type = "string_array" then .ok "std::vector<std::string>"
  else if yaml_type = "double_array" then .ok "std::vector<double>"
  else if yaml_type = "int_array" then .ok "std::vector<int>"
  else if yaml_type = "bool_array" then .ok "std::vector<bool>"
  else if yaml_type = "string" then .ok "std::string"
  else if yaml_type = "double" then .ok "double"
  else if yaml_type = "int" then .ok "int"
  else if yaml_type = "bool" then .ok "bool"
  else .error (compile_error ("invalid yaml type: " ++ classOfStr))

/-- Embeds `cpp_primitive_type_from_defined_type` from main.py. -/
def cpp_primitive_type_from_defined_type (yaml_type : String) : Except PyError String :=
  if yaml_type = "string_array" then .ok "std::string"
  else if yaml_type = "double_array" then .ok "double"
  else if yaml_type = "int_array" then .ok "int"
  else if yaml_type = "bool_array" then .ok "bool"
  else if yaml_type = "string" then .ok "std::string"
  else if yaml_type = "double" then .ok "double"
  else if yaml_type = "int" then .ok "int"
  else if yaml_type = "bool" then .ok "bool"
  else .error (compile_error ("invalid yaml type: " ++ classOfStr))

/-- The four `*_to_str` conversion functions plus the `lambda x: ""` that
`cpp_str_func_from_python_val` returns for `None`, defunctionalized so
they can be compared and applied. -/
inductive StrFunc where
  | strF
  | floatF
  | intF
  | boolF
  | emptyF
deriving Repr, DecidableEq

/-- Embeds `cpp_str_func_from_defined_type` from main.py, faithfully including
the `"integer_array"` spelling on the line that should handle
`"int_array"` (main.py line 208). -/
def cpp_str_func_from_defined_type (yaml_type : String) : Except PyError StrFunc :=
  if yaml_type = "string_array" then .ok .strF
  else if yaml_type = "double_array" then .ok .floatF
  else if yaml_type = "integer_array" then .ok .intF
  else if yaml_type = "bool_array" then .ok .boolF
  else if yaml_type = "string" then .ok .strF
  else if yaml_type = "double" then .ok .floatF
  else if yaml_type = "int" then .ok .intF
  else if yaml_type = "bool" then .ok .boolF
  else .error (compile_error ("invalid yaml type: " ++ classOfStr))

/-- Embeds `cpp_str_func_from_python_val` from main.py.  The `isinstance(arg,
int)` branch comes first and also catches Python booleans, because
`bool` is a subclass of `int`. -/
def cpp_str_func_from_python_val (arg : PyVal) : Except PyError StrFunc :=
  match arg with
  | .pyInt _ => .ok .intF
  | .pyBool _ => .ok .intF
  | .pyFloat _ => .ok .floatF
  | .pyStr _ => .ok .strF
  | .pyNone => .ok .emptyF
  | v => .error (compile_error ("invalid python arg type: " ++ pyClassName v))

/-- Applying one of the conversion functions to a runtime value, with the
`typeguard`-checked signatures of main.py: a value outside the
annotation raises `TypeError`; an `int` (or `bool`) where a float is
annotated is accepted, as PEP 484's numeric tower prescribes, and is
formatted from its own `str` text. -/
def applyStrFunc : StrFunc → PyVal → Except PyError String
  | .intF, .pyInt n => .ok (toString n)
  | .intF, .pyBool b => .ok (if b then "True" else "False")
  | .intF, _ => .error .typeError
  | .floatF, .pyFloat r =>
    match float_to_str (some r) with
    | some out => .ok out
    | none => .error .typeError
  | .floatF, .pyInt n =>
    match float_to_str (some (toString n)) with
    | some out => .ok out
    | none => .error .typeError
  | .floatF, .pyBool b =>
    match float_to_str (some (if b then "True" else "False")) with
    | some out => .ok out
    | none => .error .typeError
  | .floatF, _ => .error .typeError
  | .boolF, .pyBool b => .ok (if b then "true" else "false")
  | .boolF, _ => .error .typeError
  | .strF, .pyStr s => .ok ("\"" ++ s ++ "\"")
  | .strF, _ => .error .typeError
  | .emptyF, _ => .ok ""

/-- Embeds `get_parameter_as_function_str` from main.py. -/
def get_parameter_as_function_str (yaml_type : String) : Except PyError String :=
  if yaml_type = "string_array" then .ok "as_string_array()"
  else if yaml_type = "double_array" then .ok "as_double_array()"
  else if yaml_type = "int_array" then .ok "as_integer_array()"
  else if yaml_type = "bool_array" then .ok "as_bool_array()"
  else if yaml_type = "string" then .ok "as_string()"
  else if yaml_type = "double" then .ok "as_double()"
  else if yaml_type = "int" then .ok "as_int()"
  else if yaml_type = "bool" then .ok "as_bool()"
  else .error (compile_error ("invalid yaml type: " ++ classOfStr))

/-- Embeds `initialization_fail_validation(param_name)` from main.py. -/
def initialization_fail_validation (param_name : String) : String :=
  "throw rclcpp::exceptions::InvalidParameterValueException(\"Invalid value set during initialization for parameter "
    ++ param_name ++ ": + validation_result.error_msg());\"); "

/-- Embeds `initialization_pass_validation` from main.py (returns `""`). -/
def initialization_pass_validation (param_name : String)
    (parameter_conversion : String) : String := ""

/-- Embeds `update_parameter_fail_validation` from main.py. -/
def update_parameter_fail_validation : String := "return validation_result;"

/-- Embeds `update_parameter_pass_validation` from main.py. -/
def update_parameter_pass_validation : String := ""

/-! ### template-filling classes of main.py

Each of the following structures carries exactly the state its Python
class stores; `__str__` methods that only fill jinja templates (which
live outside this repository's sources) are not modelled, but the data
they compute before rendering is. -/

/-- The state of a `VariableDeclaration` object. -/
structure VariableDeclaration where
  variable_type : String
  variable_name : String
  value : PyVal
deriving Repr

/-- The state of a `DeclareParameter` object (the initial-declaration
descriptor role).  It stores no validations: `DeclareParameter` has no
`parameter_validations` attribute in main.py. -/
structure DeclareParameter where
  parameter_name : String
  parameter_description : String
  parameter_read_only : Bool
  parameter_type : String
  has_default_value : Bool
deriving Repr

/-- The state of a `ValidationFunction` object after `__init__`. -/
structure ValidationFunction where
  function_name : String
  arguments : List PyVal
deriving Repr

/-- Embeds `ValidationFunction.__init__(function_name, arguments, defined_type)`:
a `"<>"` suffix is split off and replaced by the angle-bracketed
primitive C++ type of `defined_type`; `None` arguments become `[]`. -/
def mkValidationFunction (function_name : String) (arguments : Option (List PyVal))
    (defined_type : String) : Except PyError ValidationFunction := do
  let fname ←
    if lastTwoIsAngle function_name then do
      let template_type ← cpp_primitive_type_from_defined_type defined_type
      Except.ok (dropLastTwo function_name ++ "<" ++ template_type ++ ">")
    else
      Except.ok function_name
  .ok { function_name := fname, arguments := arguments.getD [] }

/-- One inner element of a list-valued validator argument, rendered via
`cpp_str_func_from_python_val`. -/
def renderArgInner (a : PyVal) : Except PyError String := do
  let f ← cpp_str_func_from_python_val a
  applyStrFunc f a

/-- The comma-joined element texts of a list-valued validator argument
(the `for ind, a in enumerate(arg)` loop of `ValidationFunction.__str__`). -/
def renderListElems : List PyVal → Except PyError String
  | [] => .ok ""
  | [a] => renderArgInner a
  | a :: rest => do
    let s ← renderArgInner a
    let r ← renderListElems rest
    .ok (s ++ ", " ++ r)

/-- The piece a single validator argument contributes to the call
expression (one iteration of the `for arg in self.arguments` loop of
`ValidationFunction.__str__`): a list argument is wrapped in braces,
every other argument is rendered by the conversion function chosen
from its runtime kind. -/
def argPiece (a : PyVal) : Except PyError String :=
  match a with
  | .pyList xs => do
    let inner ← renderListElems xs
    Except.ok (", \x7b" ++ inner ++ "\x7d")
  | _ => do
    let r ← renderArgInner a
    Except.ok (", " ++ r)

/-- The argument portion of `ValidationFunction.__str__`: the
concatenation of every argument's piece, in order. -/
def renderArgs : List PyVal → Except PyError String
  | [] => .ok ""
  | a :: rest => do
    let piece ← argPiece a
    let restStr ← renderArgs rest
    .ok (piece ++ restStr)

/-- Embeds `ValidationFunction.__str__`: the rendered call expression. -/
def validationFunctionStr (vf : ValidationFunction) : Except PyError String := do
  let args ← renderArgs vf.arguments
  .ok (vf.function_name ++ "(param" ++ args ++ ")")

/-- The state of a `ParameterValidation` object, in the constructor's
field order: the on-failure text, the on-success text and the rule. -/
structure ParameterValidation where
  invalid_effect : String
  valid_effect : String
  validation_function : ValidationFunction
deriving Repr

/-- The state of an `UpdateParameter` object (the update-time descriptor
role). -/
structure UpdateParameter where
  parameter_name : String
  parameter_as_function : String
  parameter_validations : List ParameterValidation
deriving Repr

/-- The state of a `DeclareParameterSet` object (the declaration-set
descriptor role). -/
structure DeclareParameterSet where
  parameter_name : String
  parameter_as_function : String
  parameter_validations : List ParameterValidation
deriving Repr

/-- The state of a `DynamicDeclareParameter` object (the dynamic/mapped
descriptor role). -/
structure DynamicDeclareParameter where
  parameter_name : String
  parameter_description : String
  parameter_read_only : Bool
  parameter_type : String
  has_default_value : Bool
  parameter_as_function : String
  parameter_validations : List ParameterValidation
deriving Repr

/-- Python `l[-1]` on a list of strings. -/
def negIndex1 (l : List String) : Except PyError String :=
  match l.reverse with
  | x :: _ => .ok x
  | [] => .error .indexError

/-- Python `l[-2]` on a list of strings. -/
def negIndex2 (l : List String) : Except PyError String :=
  match l.reverse with
  | _ :: x :: _ => .ok x
  | _ => .error .indexError

/-- The named slots `DynamicDeclareParameter.__str__` computes before
rendering its jinja template (main.py lines 557-593). -/
structure DynamicDeclareParameterData where
  parameter_name : String
  mapped_param : String
  mapped_param_underscore : String
  parameter_field : String
  parameter_map : String
deriving Repr

/-- The path decomposition of `DynamicDeclareParameter.__str__`:
`tmp = name.split('.')`, `parameter_field = tmp[-1]`,
`mapped_param = tmp[-2].split('_')[-1]`, and the rebuilt map/parameter
paths. -/
def dynamic_declare_parameter_data (d : DynamicDeclareParameter) :
    Except PyError DynamicDeclareParameterData := do
  let tmp := pySplit d.parameter_name '.'
  let parameter_field ← negIndex1 tmp
  let second ← negIndex2 tmp
  let tmp2 := pySplit second '_'
  let mapped_param ← negIndex1 tmp2
  let parameter_map :=
    String.intercalate "." (tmp.dropLast.dropLast ++ [mapped_param ++ "_map"])
  let parameter_name :=
    String.intercalate "." (tmp.dropLast.dropLast ++ [parameter_field])
  .ok { parameter_name := parameter_name,
        mapped_param := mapped_param,
        mapped_param_underscore := replaceDotUnd mapped_param,
        parameter_field := parameter_field,
        parameter_map := parameter_map }

/-! ### the struct tree and the walker state

`GenParamStruct.parse_dict` holds a mutable reference `self.struct_tree`
into a tree of `Struct` objects.  The tree is modelled as a value and
the reference as the path of `sub_structs` indices from the root: the
Python code only ever mutates the struct the cursor points to (adding a
field or a child) and only moves the cursor to a child it just appended
or back to the saved parent, so the path faithfully represents the
reference. -/

/-- A `Struct` object: name, ordered fields, ordered sub-structs. -/
inductive Struct where
  | mk (struct_name : String) (fields : List VariableDeclaration)
      (sub_structs : List Struct)

/-- The `struct_name` attribute. -/
def Struct.struct_name : Struct → String
  | .mk n _ _ => n

/-- The `fields` attribute. -/
def Struct.fields : Struct → List VariableDeclaration
  | .mk _ fs _ => fs

/-- The `sub_structs` attribute. -/
def Struct.sub_structs : Struct → List Struct
  | .mk _ _ ss => ss

mutual
/-- Embeds `Struct.add_field` performed on the struct a path points to. -/
def Struct.addFieldAt : Struct → List Nat → VariableDeclaration → Struct
  | .mk n fs ss, [], v => .mk n (fs ++ [v]) ss
  | .mk n fs ss, i :: rest, v => .mk n fs (addFieldAtL ss i rest v)

/-- Helper of `Struct.addFieldAt`: descend into the `i`-th child. -/
def addFieldAtL : List Struct → Nat → List Nat → VariableDeclaration → List Struct
  | [], _, _, _ => []
  | c :: cs, 0, rest, v => c.addFieldAt rest v :: cs
  | c :: cs, i + 1, rest, v => c :: addFieldAtL cs i rest v
end

mutual
/-- Embeds `Struct.add_sub_struct` performed on the struct a path points to. -/
def Struct.addSubStructAt : Struct → List Nat → Struct → Struct
  | .mk n fs ss, [], child => .mk n fs (ss ++ [child])
  | .mk n fs ss, i :: rest, child => .mk n fs (addSubStructAtL ss i rest child)

/-- Helper of `Struct.addSubStructAt`: descend into the `i`-th child. -/
def addSubStructAtL : List Struct → Nat → List Nat → Struct → List Struct
  | [], _, _, _ => []
  | c :: cs, 0, rest, child => c.addSubStructAt rest child :: cs
  | c :: cs, i + 1, rest, child => c :: addSubStructAtL cs i rest child
end

mutual
/-- The struct a path points to, if the path is valid. -/
def Struct.getAt : Struct → List Nat → Option Struct
  | st, [] => some st
  | .mk _ _ ss, i :: rest => getAtL ss i rest

/-- Helper of `Struct.getAt`: select the `i`-th child. -/
def getAtL : List Struct → Nat → List Nat → Option Struct
  | [], _, _ => none
  | c :: _, 0, rest => c.getAt rest
  | _ :: cs, i + 1, rest => getAtL cs i rest
end

/-- The mutable state of a `GenParamStruct` object during parsing: the
struct tree rooted at `Struct("Params", [])`, the cursor
`self.struct_tree` (as a path), and the four descriptor lists. -/
structure GenParamStruct where
  struct_tree : Struct
  cursor : List Nat
  update_parameters : List UpdateParameter
  declare_parameters : List DeclareParameter
  declare_dynamic_parameters : List DynamicDeclareParameter
  declare_parameter_sets : List DeclareParameterSet

/-- Embeds `GenParamStruct.__init__`. -/
def initGenParamStruct : GenParamStruct :=
  { struct_tree := .mk "Params" [] []
    cursor := []
    update_parameters := []
    declare_parameters := []
    declare_dynamic_parameters := []
    declare_parameter_sets := [] }

/-- The name of the struct the cursor currently references
(`self.struct_tree.struct_name`). -/
def cursor_struct_name (g : GenParamStruct) : String :=
  match g.struct_tree.getAt g.cursor with
  | some st => st.struct_name
  | none => ""

/-- How many sub-structs the cursor's struct currently has (used to
compute the index of a freshly appended child). -/
def cursor_sub_count (g : GenParamStruct) : Nat :=
  match g.struct_tree.getAt g.cursor with
  | some st => st.sub_structs.length
  | none => 0

/-! ### GenParamStruct.preprocess_inputs and the two leaf parsers -/

/-- The parameter-path formula of `preprocess_inputs`:
`"".join(x + "." for x in nested_name_list[1:]) + name` — note the
`[1:]`, which drops the schema's root namespace. -/
def make_param_name (name : String) (nested_name_list : List String) : String :=
  ((nested_name_list.drop 1).map (fun x => x ++ ".")).foldl (fun a b => a ++ b) ""
    ++ name

/-- The `for func_name in validations_dict` loop of `preprocess_inputs`:
a non-`None`, non-list argument value is wrapped in a singleton list,
then a `ValidationFunction` is built (whose `typeguard` signature
requires `defined_type` to be a `str`). -/
def build_validations (ves : List (String × PyVal)) (defined_type : PyVal) :
    Except PyError (List ValidationFunction) :=
  match ves with
  | [] => .ok []
  | (func_name, args) :: rest => do
    let args0 : Option (List PyVal) :=
      match args with
      | .pyNone => none
      | .pyList xs => some xs
      | other => some [other]
    let dt ← expectStr defined_type
    let vf ← mkValidationFunction func_name args0 dt
    let vs ← build_validations rest defined_type
    .ok (vf :: vs)

/-- Embeds `GenParamStruct.preprocess_inputs(name, value, nested_name_list)`:
the required `type` field (a missing one raises
`compile_error("No type defined for parameter %s" % param_name)`), the
optional fields with their defaults, and the built validation rules. -/
def preprocess_inputs (name : String) (value : PyVal) (nested_name_list : List String) :
    Except PyError (String × PyVal × PyVal × PyVal × Bool × List ValidationFunction) := do
  let param_name := make_param_name name nested_name_list
  let entries ←
    match value with
    | .pyDict es => Except.ok es
    | _ => Except.error PyError.typeError
  let defined_type ←
    match pyDictGet entries "type" with
    | some t => Except.ok t
    | none => Except.error (compile_error ("No type defined for parameter " ++ param_name))
  let default_value := (pyDictGet entries "default_value").getD .pyNone
  let description := (pyDictGet entries "description").getD (.pyStr "")
  let read_only := pyTruthy ((pyDictGet entries "read_only").getD (.pyBool false))
  let ventries ←
    match (pyDictGet entries "validation").getD (.pyDict []) with
    | .pyDict ves => Except.ok ves
    | _ => Except.error PyError.typeError
  let validations ← build_validations ventries defined_type
  .ok (param_name, defined_type, default_value, description, read_only, validations)

/-- Embeds `GenParamStruct.parse_dynamic_params(name, value, nested_name_list)`:
adds the field to the cursor's struct and appends one
`DynamicDeclareParameter` carrying a `ParameterValidation` with the
initialization effect texts for every declared rule. -/
def parse_dynamic_params (name : String) (value : PyVal) (nested_name_list : List String)
    (g : GenParamStruct) : Except PyError GenParamStruct := do
  let (param_name, defined_type_v, default_value, description_v, read_only, validations) ←
    preprocess_inputs name value nested_name_list
  let defined_type ← expectStr defined_type_v
  let var : VariableDeclaration :=
    { variable_type := defined_type, variable_name := name, value := default_value }
  let g1 := { g with struct_tree := g.struct_tree.addFieldAt g.cursor var }
  let parameter_conversion ← get_parameter_as_function_str defined_type
  let declare_parameter_invalid := initialization_fail_validation param_name
  let declare_parameter_valid :=
    initialization_pass_validation param_name parameter_conversion
  let description ← expectStr description_v
  let dynamic_declare_parameter : DynamicDeclareParameter :=
    { parameter_name := param_name
      parameter_description := description
      parameter_read_only := read_only
      parameter_type := defined_type
      has_default_value := !default_value.isNone
      parameter_as_function := parameter_conversion
      parameter_validations := validations.map (fun vf =>
        { invalid_effect := declare_parameter_invalid
          valid_effect := declare_parameter_valid
          validation_function := vf }) }
  .ok { g1 with declare_dynamic_parameters :=
          g1.declare_dynamic_parameters ++ [dynamic_declare_parameter] }

/-- Embeds `GenParamStruct.parse_params(name, value, nested_name_list)`: adds
the field to the cursor's struct and appends one `DeclareParameter`
(carrying no validations), one `UpdateParameter` whose validations have
the update effect texts, and one `DeclareParameterSet` whose validations
have the initialization effect texts. -/
def parse_params (name : String) (value : PyVal) (nested_name_list : List String)
    (g : GenParamStruct) : Except PyError GenParamStruct := do
  let (param_name, defined_type_v, default_value, description_v, read_only, validations) ←
    preprocess_inputs name value nested_name_list
  let defined_type ← expectStr defined_type_v
  let var : VariableDeclaration :=
    { variable_type := defined_type, variable_name := name, value := default_value }
  let g1 := { g with struct_tree := g.struct_tree.addFieldAt g.cursor var }
  let description ← expectStr description_v
  let declare_parameter : DeclareParameter :=
    { parameter_name := param_name
      parameter_description := description
      parameter_read_only := read_only
      parameter_type := defined_type
      has_default_value := !default_value.isNone }
  let update_parameter_invalid := update_parameter_fail_validation
  let update_parameter_valid := update_parameter_pass_validation
  let parameter_conversion ← get_parameter_as_function_str defined_type
  let update_parameter : UpdateParameter :=
    { parameter_name := param_name
      parameter_as_function := parameter_conversion
      parameter_validations := validations.map (fun vf =>
        { invalid_effect := update_parameter_invalid
          valid_effect := update_parameter_valid
          validation_function := vf }) }
  let declare_parameter_invalid := initialization_fail_validation param_name
  let declare_parameter_valid :=
    initialization_pass_validation param_name parameter_conversion
  let declare_parameter_set : DeclareParameterSet :=
    { parameter_name := param_name
      parameter_as_function := parameter_conversion
      parameter_validations := validations.map (fun vf =>
        { invalid_effect := declare_parameter_invalid
          valid_effect := declare_parameter_valid
          validation_function := vf }) }
  .ok { g1 with
        declare_parameters := g1.declare_parameters ++ [declare_parameter]
        update_parameters := g1.update_parameters ++ [update_parameter]
        declare_parameter_sets := g1.declare_parameter_sets ++ [declare_parameter_set] }

/-! ### GenParamStruct.parse_dict — the schema tree walker -/

/-- The classification condition at the top of `parse_dict`:
`isinstance(root_map, dict) and isinstance(next(iter(root_map.values())), dict)`.
`and` short-circuits, so a non-dict is classified without touching
`next`; on an empty dict `next` raises `StopIteration`. -/
def namespace_condition (root_map : PyVal) : Except PyError Bool :=
  match root_map with
  | .pyDict [] => .error .stopIteration
  | .pyDict ((_, v0) :: _) => .ok (isDict v0)
  | _ => .ok false

mutual
/-- Embeds `GenParamStruct.parse_dict(name, root_map, nested_name)`.  The
namespace branch saves the cursor, appends and descends into a fresh
`Struct(name, [])`, visits every dict-valued child in document order
(appending `name` to `nested_name` around each recursive call), then
restores the cursor; the leaf branch dispatches on whether the cursor's
struct is a mapped parameter. -/
def parse_dict (name : String) (root_map : PyVal) (nested_name : List String)
    (g : GenParamStruct) : Except PyError GenParamStruct :=
  match root_map with
  | .pyDict [] => .error .stopIteration
  | .pyDict ((k0, v0) :: rest) =>
    if isDict v0 then
      let saved := g.cursor
      let sub_struct : Struct := .mk name [] []
      let idx := cursor_sub_count g
      let g1 : GenParamStruct :=
        { g with struct_tree := g.struct_tree.addSubStructAt g.cursor sub_struct
                 cursor := g.cursor ++ [idx] }
      match parse_dict_children name ((k0, v0) :: rest) nested_name g1 with
      | .ok g2 => .ok { g2 with cursor := saved }
      | .error e => .error e
    else
      if is_mapped_parameter (cursor_struct_name g) then
        parse_dynamic_params name (.pyDict ((k0, v0) :: rest)) nested_name g
      else
        parse_params name (.pyDict ((k0, v0) :: rest)) nested_name g
  | _ =>
    if is_mapped_parameter (cursor_struct_name g) then
      parse_dynamic_params name root_map nested_name g
    else
      parse_params name root_map nested_name g

/-- The `for key in root_map` loop of `parse_dict`'s namespace branch:
recurse into every child whose value is a dict, in document order;
non-dict children are skipped. -/
def parse_dict_children (name : String) (entries : List (String × PyVal))
    (nested_name : List String) (g : GenParamStruct) : Except PyError GenParamStruct :=
  match entries with
  | [] => .ok g
  | (key, v) :: rest =>
    if isDict v then
      match parse_dict key v (nested_name ++ [name]) g with
      | .ok g2 => parse_dict_children name rest nested_name g2
      | .error e => .error e
    else
      parse_dict_children name rest nested_name g
end

/-- The schema-compilation core of `GenParamStruct.run` (main.py lines
784-789): reject a document without exactly one root key, then walk the
single root namespace from a fresh `GenParamStruct`. -/
def compile_schema (doc : List (String × PyVal)) : Except PyError GenParamStruct :=
  match doc with
  | [(ns, v)] => parse_dict ns v [] initGenParamStruct
  | _ => .error (compile_error "the controller yaml definition must only have one root element")

/-! ### derived observations used by the theorems -/

/-- The total number of `ParameterValidation` units a state holds across
the three validation-carrying descriptor lists. -/
def numValidationUnits (g : GenParamStruct) : Nat :=
  (g.update_parameters.map (fun u => u.parameter_validations.length)).sum
    + (g.declare_parameter_sets.map (fun u => u.parameter_validations.length)).sum
    + (g.declare_dynamic_parameters.map (fun u => u.parameter_validations.length)).sum

/-- Modelled from the spec's words, for comparison against the code's map
key: "the mapped namespace's trailing underscore-delimited segment" —
the last piece of splitting the namespace name on underscores. -/
def spec_trailing_underscore_segment (s : String) : String :=
  ((pySplit s '_').reverse).headD ""

/-- Comma-joined text pieces, the shape `ValidationFunction.__str__`
builds for a list argument's elements. -/
def commaJoin : List String → String
  | [] => ""
  | [x] => x
  | x :: rest => x ++ ", " ++ commaJoin rest

/-- The state after parsing a leaf `p` of type `int` carrying one
validation rule `gt_eq: 0`, below namespace `ns` (a concrete run used
as a witness). -/
def exParamsState : GenParamStruct :=
  match parse_params "p"
      (.pyDict [("type", .pyStr "int"), ("validation", .pyDict [("gt_eq", .pyInt 0)])])
      ["ns"] initGenParamStruct with
  | .ok g => g
  | .error _ => initGenParamStruct

/-- The state after walking a schema with one namespace `ns` holding one
leaf `p` of type `bool` (a concrete run used as a witness). -/
def exWalkState : GenParamStruct :=
  match parse_dict "ns" (.pyDict [("p", .pyDict [("type", .pyStr "bool")])])
      [] initGenParamStruct with
  | .ok g => g
  | .error _ => initGenParamStruct

/-- A walker state whose cursor sits inside the mapped namespace
`ns.m__map_x`, as `parse_dict` produces it right before visiting that
namespace's leaves. -/
def exMappedCursorState : GenParamStruct :=
  { struct_tree := .mk "Params" [] [.mk "ns" [] [.mk "m__map_x" [] []]]
    cursor := [0, 0]
    update_parameters := []
    declare_parameters := []
    declare_dynamic_parameters := []
    declare_parameter_sets := [] }

/-- The state after parsing a leaf `leaf` of type `int` with the cursor
inside `ns.m__map_x` (a concrete run used as a witness). -/
def exMappedLeafState : GenParamStruct :=
  match parse_dict "leaf" (.pyDict [("type", .pyStr "int")])
      ["ns", "m__map_x"] exMappedCursorState with
  | .ok g => g
  | .error _ => initGenParamStruct

/-! ## Supporting lemmas -/

theorem splitChar_ne_nil (c : Char) (l : List Char) : splitChar c l ≠ [] := by
  induction l with
  | nil => simp [splitChar]
  | cons x xs ih =>
    simp only [splitChar]
    split
    · rename_i heq
      exact absurd heq ih
    · split <;> simp

theorem pySplit_ne_nil (s : String) (c : Char) : pySplit s c ≠ [] := by
  simpa [pySplit] using splitChar_ne_nil c s.data

theorem preprocess_inputs_param_name (name : String) (value : PyVal) (nested : List String)
    (pn : String) (dtv dv descv : PyVal) (ro : Bool) (vs : List ValidationFunction)
    (h : preprocess_inputs name value nested = .ok (pn, dtv, dv, descv, ro, vs)) :
    pn = make_param_name name nested := by
  unfold preprocess_inputs at h
  cases value
  case pyDict es =>
    simp only [bind, Except.bind] at h
    cases hty : pyDictGet es "type" with
    | none => rw [hty] at h; simp at h
    | some t =>
      rw [hty] at h
      cases hv : (pyDictGet es "validation").getD (.pyDict [])
      case pyDict ves =>
        rw [hv] at h
        simp only [bind, Except.bind] at h
        cases hb : build_validations ves t with
        | error e => rw [hb] at h; simp at h
        | ok vfs =>
          rw [hb] at h
          simp only [Except.ok.injEq, Prod.mk.injEq] at h
          exact h.1.symm
      all_goals rw [hv] at h; simp at h
  all_goals simp [bind, Except.bind] at h

/-- Everything `parse_params` does to the state on success: it adds one
field at the cursor, appends one `DeclareParameter` with no
validations, one `UpdateParameter` whose validations carry the update
effect texts, and one `DeclareParameterSet` whose validations carry the
initialization effect texts; cursor and dynamic list are untouched. -/
theorem parse_params_spec (name : String) (value : PyVal) (nested : List String)
    (g g' : GenParamStruct) (h : parse_params name value nested g = .ok g') :
    ∃ pn dtv dv descv ro vs dt desc conv,
      preprocess_inputs name value nested = .ok (pn, dtv, dv, descv, ro, vs)
      ∧ expectStr dtv = .ok dt
      ∧ expectStr descv = .ok desc
      ∧ get_parameter_as_function_str dt = .ok conv
      ∧ g' = { g with
          struct_tree := g.struct_tree.addFieldAt g.cursor
            { variable_type := dt, variable_name := name, value := dv }
          declare_parameters := g.declare_parameters ++
            [{ parameter_name := pn
               parameter_description := desc
               parameter_read_only := ro
               parameter_type := dt
               has_default_value := !dv.isNone }]
          update_parameters := g.update_parameters ++
            [{ parameter_name := pn
               parameter_as_function := conv
               parameter_validations := vs.map (fun vf =>
                 { invalid_effect := update_parameter_fail_validation
                   valid_effect := update_parameter_pass_validation
                   validation_function := vf }) }]
          declare_parameter_sets := g.declare_parameter_sets ++
            [{ parameter_name := pn
               parameter_as_function := conv
               parameter_validations := vs.map (fun vf =>
                 { invalid_effect := initialization_fail_validation pn
                   valid_effect := initialization_pass_validation pn conv
                   validation_function := vf }) }] } := by
  unfold parse_params at h
  cases hp : preprocess_inputs name value nested with
  | error e => rw [hp] at h; simp [bind, Except.bind] at h
  | ok t =>
    obtain ⟨pn, dtv, dv, descv, ro, vs⟩ := t
    rw [hp] at h
    simp only [bind, Except.bind] at h
    cases hdt : expectStr dtv with
    | error e => rw [hdt] at h; simp at h
    | ok dt =>
      rw [hdt] at h
      simp only [] at h
      cases hdesc : expectStr descv with
      | error e => rw [hdesc] at h; simp at h
      | ok desc =>
        rw [hdesc] at h
        simp only [] at h
        cases hconv : get_parameter_as_function_str dt with
        | error e => rw [hconv] at h; simp at h
        | ok conv =>
          rw [hconv] at h
          simp only [Except.ok.injEq] at h
          exact ⟨pn, dtv, dv, descv, ro, vs, dt, desc, conv,
            rfl, hdt, hdesc, hconv, h.symm⟩

/-- Everything `parse_dynamic_params` does to the state on success: it
adds one field at the cursor and appends one `DynamicDeclareParameter`
whose validations carry the initialization effect texts; cursor and the
other three descriptor lists are untouched. -/
theorem parse_dynamic_params_spec (name : String) (value : PyVal) (nested : List String)
    (g g' : GenParamStruct) (h : parse_dynamic_params name value nested g = .ok g') :
    ∃ pn dtv dv descv ro vs dt desc conv,
      preprocess_inputs name value nested = .ok (pn, dtv, dv, descv, ro, vs)
      ∧ expectStr dtv = .ok dt
      ∧ expectStr descv = .ok desc
      ∧ get_parameter_as_function_str dt = .ok conv
      ∧ g' = { g with
          struct_tree := g.struct_tree.addFieldAt g.cursor
            { variable_type := dt, variable_name := name, value := dv }
          declare_dynamic_parameters := g.declare_dynamic_parameters ++
            [{ parameter_name := pn
               parameter_description := desc
               parameter_read_only := ro
               parameter_type := dt
               has_default_value := !dv.isNone
               parameter_as_function := conv
               parameter_validations := vs.map (fun vf =>
                 { invalid_effect := initialization_fail_validation pn
                   valid_effect := initialization_pass_validation pn conv
                   validation_function := vf }) }] } := by
  unfold parse_dynamic_params at h
  cases hp : preprocess_inputs name value nested with
  | error e => rw [hp] at h; simp [bind, Except.bind] at h
  | ok t =>
    obtain ⟨pn, dtv, dv, descv, ro, vs⟩ := t
    rw [hp] at h
    simp only [bind, Except.bind] at h
    cases hdt : expectStr dtv with
    | error e => rw [hdt] at h; simp at h
    | ok dt =>
      rw [hdt] at h
      simp only [] at h
      cases hconv : get_parameter_as_function_str dt with
      | error e => rw [hconv] at h; simp at h
      | ok conv =>
        rw [hconv] at h
        simp only [] at h
        cases hdesc : expectStr descv with
        | error e => rw [hdesc] at h; simp at h
        | ok desc =>
          rw [hdesc] at h
          simp only [Except.ok.injEq] at h
          exact ⟨pn, dtv, dv, descv, ro, vs, dt, desc, conv,
            rfl, hdt, hdesc, hconv, h.symm⟩

/-- When the classification condition says `Leaf`, `parse_dict` reduces
to the mapped/static dispatch on the cursor's struct name. -/
theorem parse_dict_leaf (name : String) (root_map : PyVal) (nested : List String)
    (g : GenParamStruct) (hleaf : namespace_condition root_map = .ok false) :
    parse_dict name root_map nested g =
      if is_mapped_parameter (cursor_struct_name g) then
        parse_dynamic_params name root_map nested g
      else
        parse_params name root_map nested g := by
  cases root_map
  case pyDict entries =>
    cases entries with
    | nil => simp [namespace_condition] at hleaf
    | cons hd tl =>
      obtain ⟨k0, v0⟩ := hd
      simp only [namespace_condition, Except.ok.injEq] at hleaf
      simp only [parse_dict, hleaf]
      simp
  all_goals rfl

/-- The map key `DynamicDeclareParameter.__str__` computes: when the
descriptor's parameter path splits on dots into `mids ++ [pname,
fieldname]`, the slots are built successfully, the `parameter_field`
slot is the leaf's field name, and the `mapped_param` slot is the
trailing underscore-delimited segment of `pname`. -/
theorem dynamic_data_mapped_param (d : DynamicDeclareParameter) (pname fieldname : String)
    (mids : List String)
    (hsplit : pySplit d.parameter_name '.' = mids ++ [pname, fieldname]) :
    ∃ dd, dynamic_declare_parameter_data d = .ok dd
      ∧ dd.mapped_param = spec_trailing_underscore_segment pname
      ∧ dd.parameter_field = fieldname := by
  have hrev : (mids ++ [pname, fieldname]).reverse = fieldname :: pname :: mids.reverse := by
    simp
  cases ht2 : (pySplit pname '_').reverse with
  | nil => exact absurd (List.reverse_eq_nil_iff.mp ht2) (pySplit_ne_nil pname '_')
  | cons x xs =>
    unfold dynamic_declare_parameter_data
    simp only [hsplit, negIndex1, negIndex2, hrev, ht2, bind, Except.bind]
    refine ⟨_, rfl, ?_, rfl⟩
    simp only [spec_trailing_underscore_segment, ht2, List.headD_cons]

/-! ## Claim theorems -/

/-- Claim C1, counterexample.  The claim says a node is classified
`Namespace` iff its value is a mapping and at least one of its values is
itself a mapping.  Here is a mapping with a mapping among its values
(the value of `"b"`), which `parse_dict`'s classification condition
nevertheless sends to the leaf branch: only the *first* value is
consulted. -/
theorem C1_counterexample :
    namespace_condition (.pyDict [("a", .pyInt 1), ("b", .pyDict [("c", .pyInt 2)])])
      = .ok false
    ∧ (([("a", PyVal.pyInt 1), ("b", PyVal.pyDict [("c", PyVal.pyInt 2)])].map
        Prod.snd).any isDict) = true :=
  ⟨rfl, rfl⟩

/-- Claim C1, amended.  `parse_dict`'s classification condition holds iff
the node's value is a mapping whose *first* value (in document order) is
itself a mapping; otherwise the node is classified `Leaf` and handed to
the leaf parsers (`parse_params` / `parse_dynamic_params`, the
Parameter Descriptor Builder); the condition raises `StopIteration` on
an empty mapping, see C10. -/
theorem C1_namespace_iff_first_value_mapping (root_map : PyVal) :
    (namespace_condition root_map = .ok true ↔
      ∃ k0 v0 rest, root_map = PyVal.pyDict ((k0, v0) :: rest) ∧ isDict v0 = true)
    ∧ (∀ name nested g, namespace_condition root_map = .ok false →
        parse_dict name root_map nested g =
          if is_mapped_parameter (cursor_struct_name g) then
            parse_dynamic_params name root_map nested g
          else
            parse_params name root_map nested g) := by
  refine ⟨?_, fun name nested g hleaf => parse_dict_leaf name root_map nested g hleaf⟩
  constructor
  · intro h
    cases root_map with
    | pyDict entries =>
      cases entries with
      | nil => simp [namespace_condition] at h
      | cons hd tl =>
        obtain ⟨k0, v0⟩ := hd
        simp only [namespace_condition, Except.ok.injEq] at h
        exact ⟨k0, v0, tl, rfl, h⟩
    | pyNone => simp [namespace_condition] at h
    | pyBool b => simp [namespace_condition] at h
    | pyInt n => simp [namespace_condition] at h
    | pyFloat r => simp [namespace_condition] at h
    | pyStr s => simp [namespace_condition] at h
    | pyList xs => simp [namespace_condition] at h
  · rintro ⟨k0, v0, rest, rfl, hv⟩
    simp [namespace_condition, hv]

/-- Witness for C1: the amended classification applied to a leaf value
whose first entry is the scalar `type` field. -/
theorem C1_namespace_iff_first_value_mapping_witness :
    ((namespace_condition (.pyDict [("type", .pyStr "bool")]) = .ok true ↔
      ∃ k0 v0 rest, PyVal.pyDict [("type", PyVal.pyStr "bool")]
          = PyVal.pyDict ((k0, v0) :: rest) ∧ isDict v0 = true)
    ∧ (∀ name nested g,
        namespace_condition (.pyDict [("type", .pyStr "bool")]) = .ok false →
        parse_dict name (.pyDict [("type", .pyStr "bool")]) nested g =
          if is_mapped_parameter (cursor_struct_name g) then
            parse_dynamic_params name (.pyDict [("type", .pyStr "bool")]) nested g
          else
            parse_params name (.pyDict [("type", .pyStr "bool")]) nested g))
    ∧ namespace_condition (.pyDict [("type", .pyStr "bool")]) = .ok false :=
  ⟨C1_namespace_iff_first_value_mapping (.pyDict [("type", .pyStr "bool")]), rfl⟩

/-- Claim C2, code bug.  The Type Catalog's three lookups do not succeed
on the same eight-tag domain: `cpp_type_from_defined_type`,
`get_parameter_as_function_str` and the module's own `validate_type`
table all accept the recognized tag `int_array`, but
`cpp_str_func_from_defined_type` rejects it with the unknown-type error
and instead accepts the tag `integer_array`, which every other lookup
rejects. -/
theorem C2_type_catalog_int_array_bug :
    cpp_type_from_defined_type "int_array" = .ok "std::vector<int>"
    ∧ get_parameter_as_function_str "int_array" = .ok "as_integer_array()"
    ∧ validate_type "int_array" (.pyList [.pyInt 1]) = .ok true
    ∧ cpp_str_func_from_defined_type "int_array"
        = .error (compile_error ("invalid yaml type: " ++ classOfStr))
    ∧ cpp_str_func_from_defined_type "integer_array" = .ok .intF
    ∧ cpp_type_from_defined_type "integer_array"
        = .error (compile_error ("invalid yaml type: " ++ classOfStr))
    ∧ get_parameter_as_function_str "integer_array"
        = .error (compile_error ("invalid yaml type: " ++ classOfStr)) :=
  ⟨rfl, rfl, rfl, rfl, rfl, rfl, rfl⟩

/-- Claim C3, counterexample.  For the schema
`robot: (speed: (default_value: 1.0))` the missing-type message names
`speed`, and does *not* contain the claimed text `robot.speed`: the
path formula drops the root namespace. -/
theorem C3_counterexample :
    compile_schema [("robot", .pyDict [("speed", .pyDict [("default_value", .pyFloat "1.0")])])]
      = .error (.yamlSyntaxError "\nERROR: No type defined for parameter speed")
    ∧ pyContains "\nERROR: No type defined for parameter speed" "robot.speed" = false :=
  ⟨rfl, rfl⟩

/-- Claim C3, amended.  A leaf lacking `type` fails with the
missing-type error naming the leaf's dot-joined path *excluding the
schema's root namespace* — `nested_name_list[1:]` — so the root name
never appears in the path. -/
theorem C3_missing_type_names_path_below_root (name root : String) (rest : List String)
    (entries : List (String × PyVal))
    (h : pyDictGet entries "type" = none) :
    preprocess_inputs name (.pyDict entries) (root :: rest)
      = .error (compile_error
          ("No type defined for parameter " ++ make_param_name name (root :: rest)))
    ∧ make_param_name name (root :: rest)
      = (rest.map (fun x => x ++ ".")).foldl (fun a b => a ++ b) "" ++ name := by
  refine ⟨?_, by simp [make_param_name]⟩
  simp only [preprocess_inputs, h, bind, Except.bind]

/-- Witness for C3: the concrete leaf `speed` below root `robot` with
only a `default_value`. -/
theorem C3_missing_type_names_path_below_root_witness :
    pyDictGet [("default_value", PyVal.pyFloat "1.0")] "type" = none
    ∧ (preprocess_inputs "speed" (.pyDict [("default_value", .pyFloat "1.0")]) ["robot"]
        = .error (compile_error
            ("No type defined for parameter " ++ make_param_name "speed" ["robot"]))
      ∧ make_param_name "speed" ["robot"]
        = (([] : List String).map (fun x => x ++ ".")).foldl (fun a b => a ++ b) ""
            ++ "speed") :=
  ⟨rfl, C3_missing_type_names_path_below_root "speed" "robot" [] _ rfl⟩

/-- Claim C7, confirmed.  `float_to_str` maps the three special float
texts to three pairwise distinct canonical tokens, and every other
float text to itself with `.0` appended exactly when it contains no
`'.'` (no piece boundary under splitting on `'.'`). -/
theorem C7_float_literal_translation (r : String)
    (h1 : r ≠ "nan") (h2 : r ≠ "inf") (h3 : r ≠ "-inf") :
    float_to_str (some "nan") = some "std::numeric_limits<double>::quiet_NaN()"
    ∧ float_to_str (some "inf") = some "std::numeric_limits<double>::infinity()"
    ∧ float_to_str (some "-inf") = some "-std::numeric_limits<double>::infinity()"
    ∧ "std::numeric_limits<double>::quiet_NaN()" ≠ "std::numeric_limits<double>::infinity()"
    ∧ "std::numeric_limits<double>::quiet_NaN()" ≠ "-std::numeric_limits<double>::infinity()"
    ∧ "std::numeric_limits<double>::infinity()" ≠ "-std::numeric_limits<double>::infinity()"
    ∧ float_to_str (some r)
        = some (if (pySplit r '.').length = 1 then r ++ ".0" else r) := by
  refine ⟨rfl, rfl, rfl, by decide, by decide, by decide, ?_⟩
  simp only [float_to_str, h1, h2, h3, if_neg, if_false]
  split <;> simp_all

/-- Witness for C7 at the ordinary float text `42.5` and the
fraction-forcing text `3`. -/
theorem C7_float_literal_translation_witness :
    ("3" ≠ "nan" ∧ "3" ≠ "inf" ∧ "3" ≠ "-inf")
    ∧ float_to_str (some "3")
        = some (if (pySplit "3" '.').length = 1 then "3" ++ ".0" else "3")
    ∧ float_to_str (some "3") = some "3.0"
    ∧ float_to_str (some "42.5") = some "42.5" :=
  ⟨⟨by decide, by decide, by decide⟩,
   (C7_float_literal_translation "3" (by decide) (by decide) (by decide)).2.2.2.2.2.2,
   rfl, rfl⟩

theorem renderListElems_forall2 (xs : List PyVal) (ts : List String)
    (h : List.Forall₂ (fun x t => renderArgInner x = .ok t) xs ts) :
    renderListElems xs = .ok (commaJoin ts) := by
  induction h with
  | nil => rfl
  | @cons x t xs2 ts2 hxt htail ih =>
    cases htail with
    | nil => simpa [renderListElems, commaJoin] using hxt
    | @cons y u ys us hyu htail2 =>
      have hstep : renderListElems (x :: y :: ys)
          = Except.bind (renderArgInner x)
              (fun s => Except.bind (renderListElems (y :: ys))
                (fun r => .ok (s ++ ", " ++ r))) := rfl
      rw [hstep, hxt]
      simp only [Except.bind]
      rw [ih]
      rfl

theorem renderListElems_error (ys : List PyVal) (v : PyVal) (zs : List PyVal) (e : PyError)
    (hok : ∀ x ∈ ys, ∃ t, renderArgInner x = .ok t)
    (hbad : renderArgInner v = .error e) :
    renderListElems (ys ++ v :: zs) = .error e := by
  induction ys with
  | nil =>
    cases zs with
    | nil => simpa [renderListElems] using hbad
    | cons w ws =>
      have hstep : renderListElems (v :: w :: ws)
          = Except.bind (renderArgInner v)
              (fun s => Except.bind (renderListElems (w :: ws))
                (fun r => .ok (s ++ ", " ++ r))) := rfl
      rw [List.nil_append, hstep, hbad]
      rfl
  | cons x ys2 ih =>
    obtain ⟨t, ht⟩ := hok x (by simp)
    have htail := ih (fun a ha => hok a (by simp [ha]))
    rcases hcons : ys2 ++ v :: zs with _ | ⟨w, ws⟩
    · exact absurd hcons (by simp)
    · have hstep : renderListElems (x :: (ys2 ++ v :: zs))
          = Except.bind (renderArgInner x)
              (fun s => Except.bind (renderListElems (ys2 ++ v :: zs))
                (fun r => .ok (s ++ ", " ++ r))) := by
        rw [hcons]
        rfl
      rw [List.cons_append, hstep, ht]
      simp only [Except.bind]
      rw [htail]

theorem renderArgs_append (a b : List PyVal) (sa : String)
    (ha : renderArgs a = .ok sa) :
    renderArgs (a ++ b) = Except.bind (renderArgs b) (fun sb => .ok (sa ++ sb)) := by
  induction a generalizing sa with
  | nil =>
    simp only [renderArgs, Except.ok.injEq] at ha
    subst ha
    rw [List.nil_append]
    cases hb : renderArgs b with
    | error e => rfl
    | ok sb => simp [Except.bind, String.empty_append]
  | cons x a2 ih =>
    simp only [renderArgs, bind, Except.bind] at ha
    cases hP : argPiece x with
    | error e => rw [hP] at ha; simp at ha
    | ok p =>
      rw [hP] at ha
      cases hA : renderArgs a2 with
      | error e => rw [hA] at ha; simp at ha
      | ok r =>
        rw [hA] at ha
        simp only [Except.ok.injEq] at ha
        subst ha
        rw [List.cons_append]
        simp only [renderArgs, bind, Except.bind, hP, ih r hA]
        cases hb : renderArgs b with
        | error e => rfl
        | ok sb => simp [Except.bind, String.append_assoc]

/-- Claim C4, counterexample.  The claim says a sequence among the
validator arguments makes rule construction fail.  It does not: the
rule is built unchanged, and `ValidationFunction.__str__` emits the
sequence into the call expression as a brace-enclosed list. -/
theorem C4_counterexample :
    mkValidationFunction "subset_of" (some [.pyList [.pyStr "a", .pyStr "b"]]) "string"
      = .ok { function_name := "subset_of", arguments := [.pyList [.pyStr "a", .pyStr "b"]] }
    ∧ validationFunctionStr
        { function_name := "subset_of", arguments := [.pyList [.pyStr "a", .pyStr "b"]] }
      = .ok "subset_of(param, \x7b\"a\", \"b\"\x7d)" :=
  ⟨rfl, rfl⟩

/-- Claim C4, amended.  For every validation declaration whose argument
list holds a sequence: (1) rule construction succeeds or fails exactly
as it would with no arguments at all — `ValidationFunction.__init__`
stores the argument list unchanged without inspecting it, so no
unsupported-argument error exists; (2) at emission, a sequence argument
(at any position whose surrounding arguments render) whose elements
each render as scalar literals is emitted into the call expression as a
brace-enclosed, comma-joined list of those literals; (3) a sequence
element that itself fails scalar rendering — a nested sequence or
mapping raises the invalid-python-arg-type error — makes emission (not
construction) fail with exactly that error. -/
theorem C4_sequence_argument_accepted (fname dt : String) (args : List PyVal) :
    mkValidationFunction fname (some args) dt
      = (mkValidationFunction fname (some []) dt).map
          (fun vf => { function_name := vf.function_name, arguments := args })
    ∧ (∀ (vf : ValidationFunction) (pre post xs : List PyVal) (ts : List String)
        (sp sq : String),
        vf.arguments = pre ++ .pyList xs :: post →
        renderArgs pre = .ok sp →
        renderArgs post = .ok sq →
        List.Forall₂ (fun x t => renderArgInner x = .ok t) xs ts →
        validationFunctionStr vf
          = .ok (vf.function_name ++ "(param" ++ sp
              ++ (", \x7b" ++ commaJoin ts ++ "\x7d") ++ sq ++ ")"))
    ∧ (∀ (vf : ValidationFunction) (pre post ys zs : List PyVal) (w : PyVal)
        (sp : String) (e : PyError),
        vf.arguments = pre ++ .pyList (ys ++ w :: zs) :: post →
        renderArgs pre = .ok sp →
        (∀ x ∈ ys, ∃ t, renderArgInner x = .ok t) →
        renderArgInner w = .error e →
        validationFunctionStr vf = .error e) := by
  refine ⟨?_, ?_, ?_⟩
  · simp only [mkValidationFunction, bind, Except.bind, Option.getD]
    split
    · cases htt : cpp_primitive_type_from_defined_type dt <;>
        simp [htt, Except.map, bind, Except.bind]
    · simp [Except.map]
  · intro vf pre post xs ts sp sq hargs hpre hpost h2
    have hxs : renderListElems xs = .ok (commaJoin ts) := renderListElems_forall2 xs ts h2
    have hpiece : argPiece (.pyList xs) = .ok (", \x7b" ++ commaJoin ts ++ "\x7d") := by
      simp only [argPiece, hxs, bind, Except.bind]
    have hseq : renderArgs (PyVal.pyList xs :: post)
        = .ok ((", \x7b" ++ commaJoin ts ++ "\x7d") ++ sq) := by
      simp only [renderArgs, bind, Except.bind, hpiece, hpost]
    have hall : renderArgs (pre ++ PyVal.pyList xs :: post)
        = .ok (sp ++ ((", \x7b" ++ commaJoin ts ++ "\x7d") ++ sq)) := by
      rw [renderArgs_append pre _ sp hpre, hseq]
      rfl
    have hvf : validationFunctionStr vf
        = Except.bind (renderArgs vf.arguments)
            (fun a => .ok (vf.function_name ++ "(param" ++ a ++ ")")) := rfl
    rw [hvf, hargs, hall]
    simp only [Except.bind, Except.ok.injEq]
    simp [String.append_assoc]
  · intro vf pre post ys zs w sp e hargs hpre hys hbad
    have hxs : renderListElems (ys ++ w :: zs) = .error e :=
      renderListElems_error ys w zs e hys hbad
    have hpiece : argPiece (.pyList (ys ++ w :: zs)) = .error e := by
      simp only [argPiece, hxs, bind, Except.bind]
    have hseq : renderArgs (PyVal.pyList (ys ++ w :: zs) :: post) = .error e := by
      simp only [renderArgs, bind, Except.bind, hpiece]
    have hall : renderArgs (pre ++ PyVal.pyList (ys ++ w :: zs) :: post) = .error e := by
      rw [renderArgs_append pre _ sp hpre, hseq]
      rfl
    have hvf : validationFunctionStr vf
        = Except.bind (renderArgs vf.arguments)
            (fun a => .ok (vf.function_name ++ "(param" ++ a ++ ")")) := rfl
    rw [hvf, hargs, hall]
    rfl

/-- Witness for C4: the two emission conjuncts and the
construction-irrelevance conjunct applied to concrete rules — the
all-scalar sequence `[1, 2]` renders braced, while a sequence holding a
nested sequence fails with the invalid-python-arg-type error. -/
theorem C4_sequence_argument_accepted_witness :
    validationFunctionStr
        { function_name := "fixed_size", arguments := [.pyList [.pyInt 1, .pyInt 2]] }
      = .ok "fixed_size(param, \x7b1, 2\x7d)"
    ∧ validationFunctionStr
        { function_name := "lt", arguments := [.pyList [.pyList [.pyInt 1]]] }
      = .error (compile_error ("invalid python arg type: "
          ++ pyClassName (.pyList [.pyInt 1])))
    ∧ mkValidationFunction "fixed_size" (some [.pyList [.pyInt 1, .pyInt 2]]) "int_array"
      = (mkValidationFunction "fixed_size" (some []) "int_array").map
          (fun vf => { function_name := vf.function_name,
                       arguments := [.pyList [.pyInt 1, .pyInt 2]] }) :=
  ⟨(C4_sequence_argument_accepted "fixed_size" "int_array"
      [.pyList [.pyInt 1, .pyInt 2]]).2.1
      { function_name := "fixed_size", arguments := [.pyList [.pyInt 1, .pyInt 2]] }
      [] [] [.pyInt 1, .pyInt 2] ["1", "2"] "" "" rfl rfl rfl
      (.cons rfl (.cons rfl .nil)),
   (C4_sequence_argument_accepted "lt" "int" [.pyList [.pyList [.pyInt 1]]]).2.2
      { function_name := "lt", arguments := [.pyList [.pyList [.pyInt 1]]] }
      [] [] [] [] (.pyList [.pyInt 1]) "" _ rfl rfl (by simp) rfl,
   (C4_sequence_argument_accepted "fixed_size" "int_array"
      [.pyList [.pyInt 1, .pyInt 2]]).1⟩

/-- Claim C8, counterexample.  For the declaration `bounds: [0, 10]` on a
`double` parameter the two arguments render as the integer literals
`0` and `10` — the runtime kind of the YAML integers wins — and the
claimed texts `0.0` and `10.0` appear nowhere in the call. -/
theorem C8_counterexample :
    (preprocess_inputs "p"
        (.pyDict [("type", .pyStr "double"),
                  ("validation", .pyDict [("bounds", .pyList [.pyInt 0, .pyInt 10])])])
        []).map (fun t => t.2.2.2.2.2.map validationFunctionStr)
      = .ok [.ok "bounds(param, 0, 10)"]
    ∧ pyContains "bounds(param, 0, 10)" "0.0" = false
    ∧ pyContains "bounds(param, 0, 10)" "10.0" = false :=
  ⟨rfl, rfl, rfl⟩

/-- Claim C8, amended.  For `bounds: [a, b]` with integer bounds on a
`double` parameter, the built rule keeps the integer arguments and the
call renders them with `str(int)` decimal text (no forced fractional
part): the literal kind follows each argument's runtime kind, not the
declared parameter type. -/
theorem C8_bounds_integer_literals (a b : Int) :
    preprocess_inputs "p"
        (.pyDict [("type", .pyStr "double"),
                  ("validation", .pyDict [("bounds", .pyList [.pyInt a, .pyInt b])])])
        []
      = .ok ("p", .pyStr "double", .pyNone, .pyStr "", false,
             [{ function_name := "bounds", arguments := [.pyInt a, .pyInt b] }])
    ∧ validationFunctionStr { function_name := "bounds", arguments := [.pyInt a, .pyInt b] }
      = .ok ("bounds(param, " ++ toString a ++ ", " ++ toString b ++ ")") := by
  constructor
  · rfl
  · rw [show ("bounds(param, " : String) = "bounds" ++ "(param" ++ ", " from rfl]
    simp only [validationFunctionStr, renderArgs, argPiece, renderArgInner,
      cpp_str_func_from_python_val, applyStrFunc, bind, Except.bind,
      String.append_empty, String.append_assoc]

/-- Claim C9, confirmed.  `parse_dict` restores the struct-tree cursor:
after any successful visit — namespace (which saves the cursor,
descends through all recursive children and restores it) or leaf (which
never moves it) — the cursor equals its pre-visit value, so no cursor
change leaks across sibling subtrees. -/
theorem C9_cursor_restored (name : String) (root_map : PyVal) (nested : List String)
    (g g' : GenParamStruct) (h : parse_dict name root_map nested g = .ok g') :
    g'.cursor = g.cursor := by
  cases root_map
  case pyDict entries =>
    cases entries with
    | nil =>
      simp only [parse_dict] at h
      exact absurd h (by simp)
    | cons hd tl =>
      obtain ⟨k0, v0⟩ := hd
      simp only [parse_dict] at h
      split at h
      · split at h
        · cases h
          rfl
        · exact absurd h (by simp)
      · split at h
        · obtain ⟨_, _, _, _, _, _, _, _, _, _, _, _, _, hg'⟩ :=
            parse_dynamic_params_spec _ _ _ _ _ h
          rw [hg']
        · obtain ⟨_, _, _, _, _, _, _, _, _, _, _, _, _, hg'⟩ :=
            parse_params_spec _ _ _ _ _ h
          rw [hg']
  all_goals
    simp only [parse_dict] at h
    split at h
    · obtain ⟨_, _, _, _, _, _, _, _, _, _, _, _, _, hg'⟩ :=
        parse_dynamic_params_spec _ _ _ _ _ h
      rw [hg']
    · obtain ⟨_, _, _, _, _, _, _, _, _, _, _, _, _, hg'⟩ :=
        parse_params_spec _ _ _ _ _ h
      rw [hg']

/-- Witness for C9: a concrete walk of a one-namespace, one-leaf schema
ends with the cursor back at its initial value. -/
theorem C9_cursor_restored_witness :
    parse_dict "ns" (.pyDict [("p", .pyDict [("type", .pyStr "bool")])]) []
        initGenParamStruct
      = .ok exWalkState
    ∧ exWalkState.cursor = initGenParamStruct.cursor :=
  ⟨rfl, C9_cursor_restored "ns" (.pyDict [("p", .pyDict [("type", .pyStr "bool")])]) []
    initGenParamStruct exWalkState (by rfl)⟩

/-- Claim C5, counterexample.  A leaf nested *beneath* the mapped
namespace `m__map_x` but whose immediate parent is the ordinary
namespace `sub` produces a static descriptor (`m__map_x.sub.leaf`) and
no Dynamic descriptor at all: the walker consults only the cursor's
(immediate parent's) struct name, not the ancestors. -/
theorem C5_counterexample :
    (compile_schema [("ns", .pyDict [("m__map_x", .pyDict [("sub", .pyDict [("leaf",
        .pyDict [("type", .pyStr "int")])])])])]).map
      (fun g => (g.declare_dynamic_parameters.length,
                 g.declare_parameters.map (fun d => d.parameter_name)))
      = .ok (0, ["m__map_x.sub.leaf"])
    ∧ is_mapped_parameter "m__map_x" = true
    ∧ is_mapped_parameter "sub" = false :=
  ⟨rfl, rfl, rfl⟩

/-- Claim C5, amended.  A leaf produces a Dynamic descriptor iff its
*immediate parent* namespace (the walker's cursor struct) is mapped,
and the produced descriptor's map key is the trailing
underscore-delimited segment of that mapped namespace's name. -/
theorem C5_dynamic_iff_parent_mapped (name pname : String) (root_map : PyVal)
    (nested mids : List String) (g g' : GenParamStruct)
    (hleaf : namespace_condition root_map = .ok false)
    (hrun : parse_dict name root_map nested g = .ok g')
    (hpar : cursor_struct_name g = pname)
    (hsplit : pySplit (make_param_name name nested) '.' = mids ++ [pname, name]) :
    (g'.declare_dynamic_parameters ≠ g.declare_dynamic_parameters
      ↔ is_mapped_parameter pname = true)
    ∧ ∀ d, g'.declare_dynamic_parameters = g.declare_dynamic_parameters ++ [d] →
        ∃ dd, dynamic_declare_parameter_data d = .ok dd
          ∧ dd.mapped_param = spec_trailing_underscore_segment pname
          ∧ dd.parameter_field = name := by
  rw [parse_dict_leaf name root_map nested g hleaf, hpar] at hrun
  by_cases hm : is_mapped_parameter pname = true
  · rw [if_pos hm] at hrun
    obtain ⟨pn, dtv, dv, descv, ro, vs, dt, desc, conv, hpre, hdt, hdesc, hconv, hg'⟩ :=
      parse_dynamic_params_spec _ _ _ _ _ hrun
    have hpn : pn = make_param_name name nested :=
      preprocess_inputs_param_name _ _ _ _ _ _ _ _ _ hpre
    subst hg'
    constructor
    · refine iff_of_true ?_ hm
      intro hEq
      have := congrArg List.length hEq
      simp at this
    · intro d hd
      simp only [] at hd
      have hsingle := List.append_cancel_left hd.symm
      injection hsingle with h1
      subst h1
      refine dynamic_data_mapped_param _ pname name mids ?_
      show pySplit pn '.' = mids ++ [pname, name]
      rw [hpn]
      exact hsplit
  · rw [if_neg hm] at hrun
    obtain ⟨pn, dtv, dv, descv, ro, vs, dt, desc, conv, hpre, hdt, hdesc, hconv, hg'⟩ :=
      parse_params_spec _ _ _ _ _ hrun
    subst hg'
    constructor
    · exact iff_of_false (by simp) hm
    · intro d hd
      simp only [] at hd
      have := congrArg List.length hd
      simp at this

/-- Witness for C5: the concrete leaf `leaf` of type `int` parsed with
the cursor inside the mapped namespace `ns.m__map_x`. -/
theorem C5_dynamic_iff_parent_mapped_witness :
    namespace_condition (.pyDict [("type", .pyStr "int")]) = .ok false
    ∧ parse_dict "leaf" (.pyDict [("type", .pyStr "int")]) ["ns", "m__map_x"]
        exMappedCursorState = .ok exMappedLeafState
    ∧ cursor_struct_name exMappedCursorState = "m__map_x"
    ∧ pySplit (make_param_name "leaf" ["ns", "m__map_x"]) '.' = [] ++ ["m__map_x", "leaf"]
    ∧ ((exMappedLeafState.declare_dynamic_parameters
          ≠ exMappedCursorState.declare_dynamic_parameters
        ↔ is_mapped_parameter "m__map_x" = true)
      ∧ ∀ d, exMappedLeafState.declare_dynamic_parameters
            = exMappedCursorState.declare_dynamic_parameters ++ [d] →
          ∃ dd, dynamic_declare_parameter_data d = .ok dd
            ∧ dd.mapped_param = spec_trailing_underscore_segment "m__map_x"
            ∧ dd.parameter_field = "leaf") :=
  ⟨rfl, by rfl, rfl, rfl,
   C5_dynamic_iff_parent_mapped "leaf" "m__map_x" (.pyDict [("type", .pyStr "int")])
     ["ns", "m__map_x"] [] exMappedCursorState exMappedLeafState rfl (by rfl) rfl rfl⟩

/-- Claim C6, counterexample.  A non-dynamic leaf with exactly one
validation rule yields *two* `ParameterValidation` units in total — one
in the update-time descriptor and one in the declaration-set
descriptor — not the claimed three: the initial-declaration descriptor
(`DeclareParameter`) embeds none. -/
theorem C6_counterexample :
    (compile_schema [("ns", .pyDict [("p", .pyDict [("type", .pyStr "int"),
        ("validation", .pyDict [("gt_eq", .pyInt 0)])])])]).map
      (fun g => (numValidationUnits g,
                 g.update_parameters.map (fun u => u.parameter_validations.length),
                 g.declare_parameter_sets.map (fun u => u.parameter_validations.length),
                 g.declare_parameters.length,
                 g.declare_dynamic_parameters.length))
      = .ok (2, [1], [1], 1, 0) := rfl

/-- Claim C6, amended.  For every validation rule on a non-dynamic leaf,
`parse_params` produces exactly two parallel `ParameterValidation`
units: one embedded in the update-time descriptor (on-failure
`return validation_result;`, on-success empty) and one in the
declaration-set descriptor (on-failure the initialization throw naming
the parameter, on-success empty); the initial-declaration descriptor is
also produced but carries no validation units. -/
theorem C6_two_validation_units_per_rule (name : String) (value : PyVal)
    (nested : List String) (g g' : GenParamStruct)
    (pn : String) (dtv dv descv : PyVal) (ro : Bool) (vs : List ValidationFunction)
    (hpre : preprocess_inputs name value nested = .ok (pn, dtv, dv, descv, ro, vs))
    (hrun : parse_params name value nested g = .ok g') :
    numValidationUnits g' = numValidationUnits g + 2 * vs.length
    ∧ g'.declare_parameters.length = g.declare_parameters.length + 1
    ∧ g'.declare_dynamic_parameters = g.declare_dynamic_parameters
    ∧ ∃ conv,
        g'.update_parameters = g.update_parameters ++
          [{ parameter_name := pn
             parameter_as_function := conv
             parameter_validations := vs.map (fun vf =>
               { invalid_effect := update_parameter_fail_validation
                 valid_effect := update_parameter_pass_validation
                 validation_function := vf }) }]
        ∧ g'.declare_parameter_sets = g.declare_parameter_sets ++
          [{ parameter_name := pn
             parameter_as_function := conv
             parameter_validations := vs.map (fun vf =>
               { invalid_effect := initialization_fail_validation pn
                 valid_effect := initialization_pass_validation pn conv
                 validation_function := vf }) }] := by
  obtain ⟨pn', dtv', dv', descv', ro', vs', dt, desc, conv, hpre', hdt, hdesc, hconv, hg'⟩ :=
    parse_params_spec _ _ _ _ _ hrun
  rw [hpre] at hpre'
  simp only [Except.ok.injEq, Prod.mk.injEq] at hpre'
  obtain ⟨h1, h2, h3, h4, h5, h6⟩ := hpre'
  subst h1 h2 h3 h4 h5 h6
  subst hg'
  refine ⟨?_, by simp, by simp, conv, by simp, by simp⟩
  simp only [numValidationUnits, List.map_append, List.sum_append, List.map_cons,
    List.map_nil, List.length_map, List.sum_cons, List.sum_nil]
  omega

/-- Witness for C6: the concrete leaf `p` of type `int` with the single
rule `gt_eq: 0`, parsed below namespace `ns`. -/
theorem C6_two_validation_units_per_rule_witness :
    preprocess_inputs "p"
        (.pyDict [("type", .pyStr "int"), ("validation", .pyDict [("gt_eq", .pyInt 0)])])
        ["ns"]
      = .ok ("p", .pyStr "int", .pyNone, .pyStr "", false,
             [{ function_name := "gt_eq", arguments := [.pyInt 0] }])
    ∧ parse_params "p"
        (.pyDict [("type", .pyStr "int"), ("validation", .pyDict [("gt_eq", .pyInt 0)])])
        ["ns"] initGenParamStruct
      = .ok exParamsState
    ∧ (numValidationUnits exParamsState
        = numValidationUnits initGenParamStruct
            + 2 * [{ function_name := "gt_eq",
                     arguments := [PyVal.pyInt 0] : ValidationFunction }].length
      ∧ exParamsState.declare_parameters.length
        = initGenParamStruct.declare_parameters.length + 1
      ∧ exParamsState.declare_dynamic_parameters
        = initGenParamStruct.declare_dynamic_parameters
      ∧ ∃ conv,
          exParamsState.update_parameters = initGenParamStruct.update_parameters ++
            [{ parameter_name := "p"
               parameter_as_function := conv
               parameter_validations :=
                 [{ function_name := "gt_eq",
                    arguments := [PyVal.pyInt 0] : ValidationFunction }].map (fun vf =>
                   { invalid_effect := update_parameter_fail_validation
                     valid_effect := update_parameter_pass_validation
                     validation_function := vf }) }]
          ∧ exParamsState.declare_parameter_sets = initGenParamStruct.declare_parameter_sets ++
            [{ parameter_name := "p"
               parameter_as_function := conv
               parameter_validations :=
                 [{ function_name := "gt_eq",
                    arguments := [PyVal.pyInt 0] : ValidationFunction }].map (fun vf =>
                   { invalid_effect := initialization_fail_validation "p"
                     valid_effect := initialization_pass_validation "p" conv
                     validation_function := vf }) }]) :=
  ⟨rfl, by rfl,
   C6_two_validation_units_per_rule "p"
     (.pyDict [("type", .pyStr "int"), ("validation", .pyDict [("gt_eq", .pyInt 0)])])
     ["ns"] initGenParamStruct exParamsState "p" (.pyStr "int") .pyNone (.pyStr "") false
     [{ function_name := "gt_eq", arguments := [.pyInt 0] }] rfl (by rfl)⟩

/-- Claim C10, confirmed. A node whose value is an empty mapping makes
the classification step fail with `StopIteration` (from
`next(iter(root_map.values()))`), which is none of the documented
`YAMLSyntaxError`-based taxonomy. -/
theorem C10_empty_mapping_stop_iteration (name : String) (nested : List String)
    (g : GenParamStruct) :
    parse_dict name (.pyDict []) nested g = .error .stopIteration
    ∧ namespace_condition (.pyDict []) = .error .stopIteration
    ∧ ∀ msg, PyError.stopIteration ≠ PyError.yamlSyntaxError msg := by
  refine ⟨rfl, rfl, ?_⟩
  intro msg
  simp

end GenParamLib
